import Mathlib

/-!
Shallow embedding of the fitness-agent core (src/app/fitness_advisor):
the data model from models.py and the decision/registry functions from
service.py.  Python datetimes are modelled as abstract integer timestamps
passed explicitly (`now`), times of day as minutes since midnight
(`time(12,0)` = 720), uuid generation as an explicit fresh-id argument,
and Python floats in profile/tracking fields as rationals.  The float
comparison `calories_consumed > calories_goal * 0.8` is modelled by the
exact rational inequality `5 * consumed > 4 * goal`.  Mutation of the
Pydantic objects is modelled by state passing: each mutating function
returns the updated records alongside its Python return value.
-/

inductive ActivityLevel where
  | sedentary | light | moderate | very_active | athlete
deriving DecidableEq

inductive CookingSkillLevel where
  | beginner | intermediate | advanced
deriving DecidableEq

inductive FitnessGoal where
  | healthy_living | weight_gain | weight_loss | muscle_gain | strength
deriving DecidableEq

inductive CircleRank where
  | follower | member | leader | influencer | community_influencer | big_influencer
deriving DecidableEq

inductive NotificationType where
  | step_reminder | meal_reminder | workout_reminder | progress_celebration
  | calorie_warning | hydration_reminder | circle_challenge | accountability_check
  | influencer_motivation
deriving DecidableEq

inductive SkippedMeal where
  | breakfast | lunch | dinner | snack | breakfast_lunch | lunch_dinner
  | dinner_snack | breakfast_dinner | breakfast_lunch_dinner
  | breakfast_lunch_dinner_snack
deriving DecidableEq

/-- Values occurring in a `BehavioralNotification.context` dict. -/
inductive CtxVal where
  | int (i : Int)
  | str (s : String)
  | strList (l : List String)
deriving DecidableEq

structure CircleMember where
  user_id : String
  name : String
  rank : CircleRank
  fitness_goal : FitnessGoal
  current_streak : Int
  total_points : Int
  followers_count : Int
  following_count : Int
  last_active : Int
  profile_picture : Option String
  bio : Option String
  location : String
  is_online : Bool
deriving DecidableEq

structure FitnessCircle where
  circle_id : String
  name : String
  description : String
  created_by : String
  members : List CircleMember
  max_members : Int
  is_public : Bool
  tags : List String
  created_at : Int
  last_activity : Int
  total_challenges_completed : Int
  circle_goal : FitnessGoal
  circle_theme : Option String
deriving DecidableEq

structure CircleChallenge where
  challenge_id : String
  circle_id : String
  title : String
  description : String
  challenge_type : String
  target_value : Int
  duration_days : Int
  points_reward : Int
  created_by : String
  participants : List String
  completed_by : List String
  start_date : Int
  end_date : Int
  is_active : Bool
deriving DecidableEq

structure AccountabilityCheck where
  check_id : String
  circle_id : String
  initiated_by : String
  target_members : List String
  message : String
  check_type : String
  created_at : Int
  responses : List (String × String)
  is_completed : Bool
deriving DecidableEq

structure InfluencerPost where
  post_id : String
  influencer_id : String
  circle_id : String
  content : String
  post_type : String
  media_urls : List String
  likes : Int
  comments : List String
  created_at : Int
  is_featured : Bool
deriving DecidableEq

structure DailyTracking where
  date : Int
  steps_taken : Int
  steps_goal : Int
  calories_consumed : Int
  calories_goal : Int
  meals_logged : List String
  workouts_completed : List String
  water_intake : Rat
  water_goal : Rat
  current_time : Option Nat
deriving DecidableEq

structure FitnessProfile where
  age : Int
  weight : Rat
  height : Rat
  name : String
  location : String
  gender : String
  desired_weight : Rat
  activity_level : ActivityLevel
  fitness_goal : FitnessGoal
  health_conditions : List String
  dietary_restrictions : List String
  cooking_skill_level : CookingSkillLevel
  intermittent_fasting : Bool
  skipped_meals : List SkippedMeal
  fasting_threshold : Int
  allergies : List String
  cuisine_preferences : List String
  injuries : List String
  preferred_workout_time : String
  available_equipment : List String
  workout_days_per_week : Int
  daily_calorie_deficit : Int
  daily_calorie_surplus : Int
  step_goal : Int
  water_goal : Rat
  circle_rank : CircleRank
  circles_joined : List String
  followers : List String
  following : List String
deriving DecidableEq

structure BehavioralNotification where
  notification_type : NotificationType
  message : String
  urgency : String
  context : List (String × CtxVal)
  suggested_action : Option String
deriving DecidableEq

/-- `str(time)` for a whole-minute time of day, e.g. `"12:00:00"`. -/
def pad2 (n : Nat) : String :=
  if n < 10 then "0" ++ toString n else toString n

def timeStr (t : Nat) : String :=
  pad2 (t / 60) ++ ":" ++ pad2 (t % 60) ++ ":00"

/-- `tracking.current_time or datetime.now().time()`. -/
def effectiveTime (t : DailyTracking) (nowTime : Nat) : Nat :=
  t.current_time.getD nowTime

def ctxLookup (ctx : List (String × CtxVal)) (k : String) : Option CtxVal :=
  (ctx.find? (fun kv => kv.1 == k)).map (·.2)

/-- The notification built by `check_step_progress` when it fires. -/
def mkStepNotification (t : DailyTracking) (ct : Nat) : BehavioralNotification :=
  { notification_type := NotificationType.step_reminder
    message := "🚶‍♂️ Only " ++ (toString t.steps_taken ++ (" steps by noon! You need "
      ++ (toString (t.steps_goal - t.steps_taken) ++ (" more steps to reach your "
      ++ (toString t.steps_goal ++ " goal. A 30-minute walk could add ~3,000 steps!")))))
    urgency := "high"
    context := [("steps_taken", CtxVal.int t.steps_taken),
                ("steps_goal", CtxVal.int t.steps_goal),
                ("time", CtxVal.str (timeStr ct))]
    suggested_action := some "Take a 30-minute walk or break up movement throughout the day" }

def check_step_progress (_profile : FitnessProfile) (t : DailyTracking) (nowTime : Nat) :
    Option BehavioralNotification :=
  let ct := effectiveTime t nowTime
  if 720 ≤ ct ∧ t.steps_taken < 2000 then some (mkStepNotification t ct) else none

/-- The breakfast-reminder notification built by `check_meal_logging`. -/
def mkBreakfastNotification (t : DailyTracking) (ct : Nat) : BehavioralNotification :=
  { notification_type := NotificationType.meal_reminder
    message := "🍳 Haven't logged breakfast yet? Starting your day with a balanced meal helps maintain your metabolism and energy levels!"
    urgency := "medium"
    context := [("meals_logged", CtxVal.strList t.meals_logged),
                ("time", CtxVal.str (timeStr ct))]
    suggested_action := some "Log your breakfast or plan your next meal" }

/-- The lunch-reminder notification built by `check_meal_logging`. -/
def mkLunchNotification (t : DailyTracking) (ct : Nat) : BehavioralNotification :=
  { notification_type := NotificationType.meal_reminder
    message := "🥗 Time for lunch! Don't skip meals - it can lead to overeating later. Aim for protein and veggies to stay on track with your goals."
    urgency := "medium"
    context := [("meals_logged", CtxVal.strList t.meals_logged),
                ("time", CtxVal.str (timeStr ct))]
    suggested_action := some "Log your lunch or plan a healthy meal" }

def check_meal_logging (_profile : FitnessProfile) (t : DailyTracking) (nowTime : Nat) :
    Option BehavioralNotification :=
  let ct := effectiveTime t nowTime
  if 600 ≤ ct ∧ "breakfast" ∉ t.meals_logged then some (mkBreakfastNotification t ct)
  else if 840 ≤ ct ∧ "lunch" ∉ t.meals_logged then some (mkLunchNotification t ct)
  else none

/-- The calorie-warning notification built by `check_calorie_progress`. -/
def mkCalorieNotification (t : DailyTracking) : BehavioralNotification :=
  { notification_type := NotificationType.calorie_warning
    message := "⚠️ You've consumed " ++ (toString t.calories_consumed
      ++ (" calories today. Only " ++ (toString (t.calories_goal - t.calories_consumed)
      ++ " calories left to stay within your weight loss target!")))
    urgency := "high"
    context := [("calories_consumed", CtxVal.int t.calories_consumed),
                ("calories_goal", CtxVal.int t.calories_goal)]
    suggested_action := some "Choose lower-calorie options for remaining meals" }

def check_calorie_progress (profile : FitnessProfile) (t : DailyTracking) :
    Option BehavioralNotification :=
  if profile.fitness_goal = FitnessGoal.weight_loss then
    if 4 * t.calories_goal < 5 * t.calories_consumed then some (mkCalorieNotification t)
    else none
  else none

/-- Result of the contextual selector: a concrete rule notification, or
delegation to the external generative fallback (`generate_behavioral_notification`). -/
inductive NotificationDecision where
  | rule (n : BehavioralNotification)
  | generativeFallback
deriving DecidableEq

def get_contextual_notification (profile : FitnessProfile) (t : DailyTracking)
    (nowTime : Nat) : NotificationDecision :=
  match check_step_progress profile t nowTime with
  | some n => NotificationDecision.rule n
  | none =>
    match check_meal_logging profile t nowTime with
    | some n => NotificationDecision.rule n
    | none =>
      match check_calorie_progress profile t with
      | some n => NotificationDecision.rule n
      | none => NotificationDecision.generativeFallback

/-- `next((m for m in circle.members if m.user_id == uid), None)`. -/
def findMember (members : List CircleMember) (uid : String) : Option CircleMember :=
  members.find? (fun m => m.user_id == uid)

/-- In-place mutation of the first member whose `user_id` matches, as done
through the object reference returned by `next(...)` in the source. -/
def updateFirstMember (uid : String) (f : CircleMember → CircleMember) :
    List CircleMember → List CircleMember
  | [] => []
  | m :: rest =>
    if m.user_id = uid then f m :: rest else m :: updateFirstMember uid f rest

/-- The member record appended by `join_circle` on success. -/
def joinNewMember (profile : FitnessProfile) (now : Int) : CircleMember :=
  { user_id := profile.name
    name := profile.name
    rank := if profile.circle_rank ∈ [CircleRank.influencer,
        CircleRank.community_influencer, CircleRank.big_influencer]
      then CircleRank.member else CircleRank.follower
    fitness_goal := profile.fitness_goal
    current_streak := 0
    total_points := 0
    followers_count := 0
    following_count := 0
    last_active := now
    profile_picture := none
    bio := none
    location := profile.location
    is_online := true }

/-- Returns the Python boolean plus the (possibly mutated) profile and circle. -/
def join_circle (profile : FitnessProfile) (circle : FitnessCircle) (now : Int) :
    Bool × FitnessProfile × FitnessCircle :=
  if circle.max_members ≤ (circle.members.length : Int) then (false, profile, circle)
  else if profile.name ∈ circle.members.map (·.user_id) then (false, profile, circle)
  else
    (true,
     { profile with circles_joined := profile.circles_joined ++ [circle.circle_id] },
     { circle with
        members := circle.members ++ [joinNewMember profile now]
        last_activity := now })

/-- The creator's member record in `create_fitness_circle`. -/
def creatorMember (creator_profile : FitnessProfile) (now : Int) : CircleMember :=
  { user_id := creator_profile.name
    name := creator_profile.name
    rank := if creator_profile.circle_rank ∈ [CircleRank.influencer,
        CircleRank.community_influencer, CircleRank.big_influencer]
      then CircleRank.leader else CircleRank.member
    fitness_goal := creator_profile.fitness_goal
    current_streak := 0
    total_points := 0
    followers_count := 0
    following_count := 0
    last_active := now
    profile_picture := none
    bio := none
    location := creator_profile.location
    is_online := true }

/-- Returns the new circle plus the mutated creator profile. -/
def create_fitness_circle (creator_profile : FitnessProfile) (name description : String)
    (circle_goal : FitnessGoal) (max_members : Int) (is_public : Bool)
    (tags : List String) (now : Int) (freshId : String) :
    FitnessCircle × FitnessProfile :=
  let circle : FitnessCircle :=
    { circle_id := freshId
      name := name
      description := description
      created_by := creator_profile.name
      members := [creatorMember creator_profile now]
      max_members := max_members
      is_public := is_public
      tags := tags
      created_at := now
      last_activity := now
      total_challenges_completed := 0
      circle_goal := circle_goal
      circle_theme := none }
  (circle,
   { creator_profile with
      circles_joined := creator_profile.circles_joined ++ [circle.circle_id] })

/-- The challenge object built by `create_circle_challenge` when authorized:
fresh id, all current member ids as participants, `end_date` a
`duration_days`-day offset from `start_date = now`. -/
def mkCircleChallenge (creator_profile : FitnessProfile) (circle : FitnessCircle)
    (title description challenge_type : String)
    (target_value duration_days points_reward : Int) (now : Int)
    (freshId : String) : CircleChallenge :=
  { challenge_id := freshId
    circle_id := circle.circle_id
    title := title
    description := description
    challenge_type := challenge_type
    target_value := target_value
    duration_days := duration_days
    points_reward := points_reward
    created_by := creator_profile.name
    participants := circle.members.map (·.user_id)
    completed_by := []
    start_date := now
    end_date := now + duration_days * 86400
    is_active := true }

def create_circle_challenge (creator_profile : FitnessProfile) (circle : FitnessCircle)
    (title description challenge_type : String) (target_value duration_days points_reward : Int)
    (now : Int) (freshId : String) : Option CircleChallenge :=
  match findMember circle.members creator_profile.name with
  | none => none
  | some creator_member =>
    if creator_member.rank ∈ [CircleRank.leader, CircleRank.influencer,
        CircleRank.community_influencer, CircleRank.big_influencer] then
      some (mkCircleChallenge creator_profile circle title description challenge_type
        target_value duration_days points_reward now freshId)
    else none

/-- The check object built by `initiate_accountability_check` when
authorized: `target_members` keeps, in member-list order, the user ids of
the circle members that occur among the requested targets. -/
def mkAccountabilityCheck (initiator_profile : FitnessProfile) (circle : FitnessCircle)
    (target_members : List String) (message check_type : String) (now : Int)
    (freshId : String) : AccountabilityCheck :=
  { check_id := freshId
    circle_id := circle.circle_id
    initiated_by := initiator_profile.name
    target_members :=
      (circle.members.filter (fun m => decide (m.user_id ∈ target_members))).map
        (·.user_id)
    message := message
    check_type := check_type
    created_at := now
    responses := []
    is_completed := false }

def initiate_accountability_check (initiator_profile : FitnessProfile)
    (circle : FitnessCircle) (target_members : List String) (message check_type : String)
    (now : Int) (freshId : String) : Option AccountabilityCheck :=
  match findMember circle.members initiator_profile.name with
  | none => none
  | some initiator_member =>
    if initiator_member.rank ∈ [CircleRank.leader, CircleRank.influencer,
        CircleRank.community_influencer, CircleRank.big_influencer] then
      some (mkAccountabilityCheck initiator_profile circle target_members message
        check_type now freshId)
    else none

/-- The gate inspects only `influencer_profile.circle_rank`; it performs no
lookup of a member record in the circle. -/
def create_influencer_post (influencer_profile : FitnessProfile) (circle : FitnessCircle)
    (content post_type : String) (media_urls : List String) (now : Int)
    (freshId : String) : Option InfluencerPost :=
  if influencer_profile.circle_rank ∈ [CircleRank.influencer,
      CircleRank.community_influencer, CircleRank.big_influencer] then
    some { post_id := freshId
           influencer_id := influencer_profile.name
           circle_id := circle.circle_id
           content := content
           post_type := post_type
           media_urls := media_urls
           likes := 0
           comments := []
           created_at := now
           is_featured := false }
  else none

def promote_member_rank (circle : FitnessCircle) (member_id : String)
    (new_rank : CircleRank) (now : Int) : Bool × FitnessCircle :=
  match findMember circle.members member_id with
  | none => (false, circle)
  | some _ =>
    (true,
     { circle with
        members := updateFirstMember member_id (fun m => { m with rank := new_rank })
          circle.members
        last_activity := now })

/-- The per-member mutation performed by `update_member_progress`:
stat refresh followed by the promotion rules. -/
def progressStep (now : Int) (m : CircleMember) : CircleMember :=
  let m1 := { m with last_active := now, is_online := true }
  if 7 ≤ m1.current_streak ∧ m1.rank = CircleRank.follower then
    { m1 with rank := CircleRank.member }
  else if 1000 ≤ m1.total_points ∧ m1.rank = CircleRank.member then
    { m1 with rank := CircleRank.leader }
  else m1

def update_member_progress (circle : FitnessCircle) (member_id : String)
    (_steps_taken _calories_consumed _workouts_completed : Int) (now : Int) :
    Bool × FitnessCircle :=
  match findMember circle.members member_id with
  | none => (false, circle)
  | some _ =>
    (true,
     { circle with
        members := updateFirstMember member_id (progressStep now) circle.members
        last_activity := now })

/-- Comparison underlying `sorted(circle.members, key=lambda x:
(x.total_points, x.current_streak), reverse=True)`: `a` may precede `b`. -/
def leaderboardLe (a b : CircleMember) : Prop :=
  b.total_points < a.total_points ∨
    (b.total_points = a.total_points ∧ b.current_streak ≤ a.current_streak)

instance : DecidableRel leaderboardLe := fun a b =>
  inferInstanceAs (Decidable (b.total_points < a.total_points ∨
    (b.total_points = a.total_points ∧ b.current_streak ≤ a.current_streak)))

/-- Python's `sorted` is the stable sort for this total preorder; the stable
insertion sort computes the same (unique) result. -/
def get_circle_leaderboard (circle : FitnessCircle) : List CircleMember :=
  List.insertionSort leaderboardLe circle.members

/-- A registry mutation on one circle, for reasoning about operation sequences. -/
inductive RegistryOp where
  | joinOp (profile : FitnessProfile) (now : Int)
  | promoteOp (member_id : String) (new_rank : CircleRank) (now : Int)
  | updateOp (member_id : String) (steps calories workouts : Int) (now : Int)
deriving DecidableEq

def RegistryOp.isAdminPromote : RegistryOp → Bool
  | .promoteOp _ _ _ => true
  | _ => false

def applyOp (circle : FitnessCircle) : RegistryOp → FitnessCircle
  | .joinOp p now => (join_circle p circle now).2.2
  | .promoteOp id r now => (promote_member_rank circle id r now).2
  | .updateOp id s cal w now => (update_member_progress circle id s cal w now).2

def applyOps (circle : FitnessCircle) : List RegistryOp → FitnessCircle
  | [] => circle
  | op :: ops => applyOps (applyOp circle op) ops

/-- Numeric height of a rank in the tier order Follower < Member < Leader <
Influencer < CommunityInfluencer < BigInfluencer. -/
def rankVal : CircleRank → Nat
  | .follower => 0
  | .member => 1
  | .leader => 2
  | .influencer => 3
  | .community_influencer => 4
  | .big_influencer => 5

/-- The profile with its `circles_joined` field blanked, for frame statements. -/
def profileSansCirclesJoined (p : FitnessProfile) : FitnessProfile :=
  { p with circles_joined := [] }

/-- `prefAt sub l` : `sub` is an initial segment of `l`. -/
def prefAt : List Char → List Char → Bool
  | [], _ => true
  | _ :: _, [] => false
  | c :: cs, d :: ds => c == d && prefAt cs ds

def hasSubList (sub : List Char) : List Char → Bool
  | [] => prefAt sub []
  | d :: ds => prefAt sub (d :: ds) || hasSubList sub ds

/-- `sub` occurs as a contiguous substring of `s`. -/
def strContainsSub (s sub : String) : Bool :=
  hasSubList sub.data s.data

/-! Concrete sample data used by witnesses and counterexamples. -/

def exProfile : FitnessProfile :=
  { age := 30, weight := 70, height := 175, name := "alice", location := "Lagos"
    gender := "female", desired_weight := 65, activity_level := ActivityLevel.moderate
    fitness_goal := FitnessGoal.weight_loss, health_conditions := []
    dietary_restrictions := [], cooking_skill_level := CookingSkillLevel.beginner
    intermittent_fasting := false, skipped_meals := [], fasting_threshold := 12
    allergies := [], cuisine_preferences := [], injuries := []
    preferred_workout_time := "morning", available_equipment := []
    workout_days_per_week := 3, daily_calorie_deficit := 500
    daily_calorie_surplus := 0, step_goal := 10000, water_goal := 2
    circle_rank := CircleRank.follower, circles_joined := [], followers := []
    following := [] }

def exProfileMuscle : FitnessProfile :=
  { exProfile with fitness_goal := FitnessGoal.muscle_gain }

def exTrackSteps : DailyTracking :=
  { date := 0, steps_taken := 200, steps_goal := 10000, calories_consumed := 0
    calories_goal := 0, meals_logged := [], workouts_completed := []
    water_intake := 0, water_goal := 2, current_time := some 720 }

def exTrackMeal : DailyTracking :=
  { exTrackSteps with steps_taken := 5000, current_time := some 840 }

def exTrackCal : DailyTracking :=
  { exTrackSteps with
    steps_taken := 8000, calories_consumed := 1300,
    calories_goal := 1500, current_time := some 960 }

def exFollowerMember : CircleMember :=
  { user_id := "bob", name := "bob", rank := CircleRank.follower
    fitness_goal := FitnessGoal.weight_loss, current_streak := 8
    total_points := 2000, followers_count := 0, following_count := 0
    last_active := 0, profile_picture := none, bio := none, location := "Lagos"
    is_online := false }

def exCircle5 : FitnessCircle :=
  { circle_id := "c5", name := "steppers", description := "walk daily"
    created_by := "bob", members := [exFollowerMember], max_members := 10
    is_public := true, tags := [], created_at := 0, last_activity := 0
    total_challenges_completed := 0, circle_goal := FitnessGoal.weight_loss
    circle_theme := none }

def exJoiner : FitnessProfile := { exProfile with name := "carol" }

def exFullCircle : FitnessCircle := { exCircle5 with max_members := 1 }

def exInfProfile : FitnessProfile :=
  { exProfile with name := "dora", circle_rank := CircleRank.influencer }

def exEmptyCircle : FitnessCircle :=
  { exCircle5 with circle_id := "c1x", members := [] }

def exLeaderMember : CircleMember :=
  { exFollowerMember with user_id := "lena", name := "lena", rank := CircleRank.leader }

def exLeaderCircle : FitnessCircle :=
  { exCircle5 with circle_id := "cl", members := [exLeaderMember, exFollowerMember] }

def exLeaderProfile : FitnessProfile :=
  { exProfile with name := "lena", circle_rank := CircleRank.leader }

def exMemA : CircleMember :=
  { exFollowerMember with user_id := "a", name := "a", total_points := 10, current_streak := 5 }

def exMemB : CircleMember :=
  { exFollowerMember with user_id := "b", name := "b", total_points := 7, current_streak := 9 }

def exCircSortA : FitnessCircle :=
  { exCircle5 with circle_id := "s1", members := [exMemB, exMemA] }

def exCircSortB : FitnessCircle :=
  { exCircle5 with circle_id := "s2", members := [exMemA, exMemB] }

def exTieA : CircleMember := { exFollowerMember with user_id := "ta", name := "ta" }

def exTieB : CircleMember := { exFollowerMember with user_id := "tb", name := "tb" }

def exCircTie1 : FitnessCircle :=
  { exCircle5 with circle_id := "t1", members := [exTieA, exTieB] }

def exCircTie2 : FitnessCircle :=
  { exCircle5 with circle_id := "t2", members := [exTieB, exTieA] }

/-! Helper lemmas. -/

theorem prefAt_self_append (sub post : List Char) : prefAt sub (sub ++ post) = true := by
  induction sub with
  | nil => rfl
  | cons c cs ih => simp [prefAt, ih]

theorem hasSubList_of_prefAt (sub l : List Char) (h : prefAt sub l = true) :
    hasSubList sub l = true := by
  cases l with
  | nil => simpa [hasSubList] using h
  | cons d ds => simp [hasSubList, h]

theorem hasSubList_append_left (sub : List Char) (pre : List Char) :
    ∀ l, hasSubList sub l = true → hasSubList sub (pre ++ l) = true := by
  induction pre with
  | nil => intro l h; simpa using h
  | cons d ds ih =>
    intro l h
    have hrec : hasSubList sub (ds ++ l) = true := ih l h
    have : hasSubList sub (d :: (ds ++ l)) =
        (prefAt sub (d :: (ds ++ l)) || hasSubList sub (ds ++ l)) := rfl
    rw [List.cons_append, this, hrec, Bool.or_true]

theorem strContainsSub_append_right (a s x : String)
    (h : strContainsSub s x = true) : strContainsSub (a ++ s) x = true := by
  unfold strContainsSub at h ⊢
  rw [String.data_append]
  exact hasSubList_append_left _ _ _ h

theorem strContainsSub_self_append (x s : String) :
    strContainsSub (x ++ s) x = true := by
  unfold strContainsSub
  rw [String.data_append]
  exact hasSubList_of_prefAt _ _ (prefAt_self_append _ _)

theorem progressStep_user_id (now : Int) (m : CircleMember) :
    (progressStep now m).user_id = m.user_id := by
  simp only [progressStep]
  split
  · rfl
  · split
    · rfl
    · rfl

theorem rank_progressStep (now : Int) (m : CircleMember) :
    (progressStep now m).rank =
      (if m.rank = CircleRank.follower ∧ 7 ≤ m.current_streak then CircleRank.member
       else if m.rank = CircleRank.member ∧ 1000 ≤ m.total_points then CircleRank.leader
       else m.rank) := by
  simp only [progressStep]
  by_cases h1 : m.rank = CircleRank.follower ∧ 7 ≤ m.current_streak
  · rw [if_pos ⟨h1.2, h1.1⟩, if_pos h1]
  · rw [if_neg (fun h => h1 ⟨h.2, h.1⟩), if_neg h1]
    by_cases h2 : m.rank = CircleRank.member ∧ 1000 ≤ m.total_points
    · rw [if_pos ⟨h2.2, h2.1⟩, if_pos h2]
    · rw [if_neg (fun h => h2 ⟨h.2, h.1⟩), if_neg h2]

theorem rankVal_progressStep (now : Int) (m : CircleMember) :
    rankVal m.rank ≤ rankVal (progressStep now m).rank := by
  rw [rank_progressStep]
  by_cases h1 : m.rank = CircleRank.follower ∧ 7 ≤ m.current_streak
  · rw [if_pos h1, h1.1]
    decide
  · rw [if_neg h1]
    by_cases h2 : m.rank = CircleRank.member ∧ 1000 ≤ m.total_points
    · rw [if_pos h2, h2.1]
      decide
    · rw [if_neg h2]

theorem findMember_updateFirstMember (uid id : String) (f : CircleMember → CircleMember)
    (hf : ∀ x, (f x).user_id = x.user_id) (l : List CircleMember) :
    findMember (updateFirstMember id f l) uid =
      (if uid = id then (findMember l uid).map f else findMember l uid) := by
  induction l with
  | nil =>
    by_cases h : uid = id <;> simp [findMember, updateFirstMember, h]
  | cons m rest ih =>
    have hupd : updateFirstMember id f (m :: rest) =
        (if m.user_id = id then f m :: rest else m :: updateFirstMember id f rest) := rfl
    by_cases hm : m.user_id = id
    · rw [hupd, if_pos hm]
      by_cases hu : uid = id
      · have h1 : ((f m).user_id == uid) = true :=
          beq_iff_eq.mpr (by rw [hf m, hm, hu])
        have h2 : (m.user_id == uid) = true := beq_iff_eq.mpr (by rw [hm, hu])
        unfold findMember
        rw [List.find?_cons_of_pos (p := fun x : CircleMember => x.user_id == uid) _ h1,
          List.find?_cons_of_pos (p := fun x : CircleMember => x.user_id == uid) _ h2, if_pos hu]
        rfl
      · have hne : ¬ ((f m).user_id = uid) := by
          rw [hf m, hm]
          exact fun h => hu h.symm
        have hne2 : ¬ (m.user_id = uid) := by
          rw [hm]
          exact fun h => hu h.symm
        unfold findMember
        rw [List.find?_cons_of_neg (p := fun x : CircleMember => x.user_id == uid) _ (by simpa using hne),
          List.find?_cons_of_neg (p := fun x : CircleMember => x.user_id == uid) _ (by simpa using hne2),
          if_neg hu]
    · rw [hupd, if_neg hm]
      by_cases hmu : m.user_id = uid
      · have huid : ¬ uid = id := by
          rw [← hmu]
          exact hm
        have h2 : (m.user_id == uid) = true := beq_iff_eq.mpr hmu
        unfold findMember
        rw [List.find?_cons_of_pos (p := fun x : CircleMember => x.user_id == uid) _ h2,
          List.find?_cons_of_pos (p := fun x : CircleMember => x.user_id == uid) _ h2, if_neg huid]
      · have h2 : ¬ ((m.user_id == uid) = true) := by simpa using hmu
        unfold findMember
        rw [List.find?_cons_of_neg (p := fun x : CircleMember => x.user_id == uid) _ h2,
          List.find?_cons_of_neg (p := fun x : CircleMember => x.user_id == uid) _ h2]
        unfold findMember at ih
        rw [ih]

theorem findMember_append (l₁ l₂ : List CircleMember) (uid : String) (m : CircleMember)
    (h : findMember l₁ uid = some m) : findMember (l₁ ++ l₂) uid = some m := by
  unfold findMember at h ⊢
  rw [List.find?_append, h]
  rfl

/-! ## Claims -/

/-- C1 (amended): influencer post creation gates solely on the acting
profile's own `circle_rank` field — it returns `none` exactly when that rank
is not an influencer tier, and it never consults the circle's member list,
so circle membership (and the member record's rank) is irrelevant. -/
theorem c1_influencer_post_profile_rank_gate (p : FitnessProfile) (c : FitnessCircle)
    (content post_type : String) (media : List String) (now : Int) (fid : String) :
    (create_influencer_post p c content post_type media now fid = none ↔
      p.circle_rank ∉ [CircleRank.influencer, CircleRank.community_influencer,
        CircleRank.big_influencer]) ∧
    (∀ ms, create_influencer_post p { c with members := ms } content post_type media now fid
      = create_influencer_post p c content post_type media now fid) := by
  constructor
  · unfold create_influencer_post
    by_cases h : p.circle_rank ∈ [CircleRank.influencer, CircleRank.community_influencer,
      CircleRank.big_influencer]
    · rw [if_pos h]
      simp [h]
    · rw [if_neg h]
      simp [h]
  · intro ms
    rfl

/-- C1 counterexample: a profile with influencer `circle_rank` that is not a
member of the circle (the circle is empty) still obtains a post, refuting
"a profile that is not a member of the circle never obtains a post". -/
theorem c1_counterexample :
    findMember exEmptyCircle.members exInfProfile.name = none ∧
    (create_influencer_post exInfProfile exEmptyCircle "go" "motivation" [] 0 "p1").isSome
      = true := by
  constructor
  · rfl
  · rfl

/-- C3: whenever `steps_taken < 2000` and the effective time is at least
12:00, the selector returns the step reminder: urgency "high", type
step-reminder, `context.steps_taken` equal to the input, and a message
referencing the steps taken and the steps remaining — for every profile and
every other tracking field. -/
theorem c3_step_reminder (p : FitnessProfile) (t : DailyTracking) (nowTime : Nat)
    (hsteps : t.steps_taken < 2000) (htime : 720 ≤ effectiveTime t nowTime) :
    get_contextual_notification p t nowTime =
      NotificationDecision.rule (mkStepNotification t (effectiveTime t nowTime)) ∧
    (mkStepNotification t (effectiveTime t nowTime)).urgency = "high" ∧
    (mkStepNotification t (effectiveTime t nowTime)).notification_type
      = NotificationType.step_reminder ∧
    ctxLookup (mkStepNotification t (effectiveTime t nowTime)).context "steps_taken"
      = some (CtxVal.int t.steps_taken) ∧
    strContainsSub (mkStepNotification t (effectiveTime t nowTime)).message
      (toString t.steps_taken) = true ∧
    strContainsSub (mkStepNotification t (effectiveTime t nowTime)).message
      (toString (t.steps_goal - t.steps_taken)) = true := by
  have hstep : check_step_progress p t nowTime
      = some (mkStepNotification t (effectiveTime t nowTime)) := by
    unfold check_step_progress
    rw [if_pos ⟨htime, hsteps⟩]
  refine ⟨?_, rfl, rfl, rfl, ?_, ?_⟩
  · unfold get_contextual_notification
    rw [hstep]
  · exact strContainsSub_append_right _ _ _ (strContainsSub_self_append _ _)
  · exact strContainsSub_append_right _ _ _ (strContainsSub_append_right _ _ _
      (strContainsSub_append_right _ _ _ (strContainsSub_self_append _ _)))

/-- C3 witness at the spec's concrete scenario: 200 steps, goal 10000,
time 12:00 — the step reminder fires with "200" and "9800" in the message. -/
theorem c3_witness :
    get_contextual_notification exProfile exTrackSteps 0 =
      NotificationDecision.rule (mkStepNotification exTrackSteps 720) ∧
    strContainsSub (mkStepNotification exTrackSteps 720).message "200" = true ∧
    strContainsSub (mkStepNotification exTrackSteps 720).message "9800" = true ∧
    (mkStepNotification exTrackSteps 720).urgency = "high" := by
  have h := c3_step_reminder exProfile exTrackSteps 0 (by decide) (by decide)
  exact ⟨h.1, h.2.2.2.2.1, h.2.2.2.2.2, h.2.1⟩

/-- C4: the calorie rule fires exactly on a weight-loss goal with
`calories_consumed > 0.8 * calories_goal` (exact-rational reading of the
float literal), in which case it yields the high-urgency calorie warning
whose message reports the consumed amount and the remaining calories;
any other fitness goal makes it abstain. -/
theorem c4_calorie_rule (p : FitnessProfile) (t : DailyTracking) :
    (∀ n, check_calorie_progress p t = some n ↔
      (p.fitness_goal = FitnessGoal.weight_loss ∧
       4 * t.calories_goal < 5 * t.calories_consumed ∧
       n = mkCalorieNotification t)) ∧
    (p.fitness_goal ≠ FitnessGoal.weight_loss → check_calorie_progress p t = none) ∧
    (mkCalorieNotification t).urgency = "high" ∧
    (mkCalorieNotification t).notification_type = NotificationType.calorie_warning ∧
    strContainsSub (mkCalorieNotification t).message (toString t.calories_consumed)
      = true ∧
    strContainsSub (mkCalorieNotification t).message
      (toString (t.calories_goal - t.calories_consumed)) = true := by
  refine ⟨?_, ?_, rfl, rfl, ?_, ?_⟩
  · intro n
    unfold check_calorie_progress
    by_cases hg : p.fitness_goal = FitnessGoal.weight_loss
    · rw [if_pos hg]
      by_cases hc : 4 * t.calories_goal < 5 * t.calories_consumed
      · rw [if_pos hc]
        constructor
        · intro h
          exact ⟨hg, hc, (Option.some.inj h).symm⟩
        · rintro ⟨-, -, rfl⟩
          rfl
      · rw [if_neg hc]
        constructor
        · intro h
          cases h
        · rintro ⟨-, hc2, -⟩
          exact absurd hc2 hc
    · rw [if_neg hg]
      constructor
      · intro h
        cases h
      · rintro ⟨hg2, -, -⟩
        exact absurd hg2 hg
  · intro hg
    unfold check_calorie_progress
    rw [if_neg hg]
  · exact strContainsSub_append_right _ _ _ (strContainsSub_self_append _ _)
  · exact strContainsSub_append_right _ _ _ (strContainsSub_append_right _ _ _
      (strContainsSub_append_right _ _ _ (strContainsSub_self_append _ _)))

/-- C4 witness: a muscle-gain profile with the same tracking data never
triggers the calorie warning. -/
theorem c4_witness : check_calorie_progress exProfileMuscle exTrackCal = none :=
  (c4_calorie_rule exProfileMuscle exTrackCal).2.1 (by decide)

/-- C2: the selector is a strict priority chain — the step rule's result
wins when it fires, else the meal rule's, else the calorie rule's, and the
generative fallback is reached iff all three abstain; the step rule beats
any meal condition, and at effective time at least 14:00 with neither
breakfast nor lunch logged (step rule abstaining) the breakfast reminder is
returned, never the lunch reminder. -/
theorem c2_selector_priority_chain (p : FitnessProfile) (t : DailyTracking)
    (nowTime : Nat) :
    (∀ n, check_step_progress p t nowTime = some n →
      get_contextual_notification p t nowTime = NotificationDecision.rule n) ∧
    (check_step_progress p t nowTime = none →
      ∀ n, check_meal_logging p t nowTime = some n →
        get_contextual_notification p t nowTime = NotificationDecision.rule n) ∧
    (check_step_progress p t nowTime = none →
      check_meal_logging p t nowTime = none →
      ∀ n, check_calorie_progress p t = some n →
        get_contextual_notification p t nowTime = NotificationDecision.rule n) ∧
    (get_contextual_notification p t nowTime = NotificationDecision.generativeFallback ↔
      (check_step_progress p t nowTime = none ∧
       check_meal_logging p t nowTime = none ∧
       check_calorie_progress p t = none)) ∧
    (720 ≤ effectiveTime t nowTime → t.steps_taken < 2000 →
      get_contextual_notification p t nowTime =
        NotificationDecision.rule (mkStepNotification t (effectiveTime t nowTime))) ∧
    (840 ≤ effectiveTime t nowTime → "breakfast" ∉ t.meals_logged →
      "lunch" ∉ t.meals_logged → check_step_progress p t nowTime = none →
      get_contextual_notification p t nowTime =
        NotificationDecision.rule (mkBreakfastNotification t (effectiveTime t nowTime)) ∧
      mkBreakfastNotification t (effectiveTime t nowTime) ≠
        mkLunchNotification t (effectiveTime t nowTime)) := by
  refine ⟨?_, ?_, ?_, ?_, ?_, ?_⟩
  · intro n hn
    unfold get_contextual_notification
    rw [hn]
  · intro hs n hn
    unfold get_contextual_notification
    rw [hs, hn]
  · intro hs hm n hn
    unfold get_contextual_notification
    rw [hs, hm, hn]
  · constructor
    · intro h
      cases hs : check_step_progress p t nowTime with
      | some n =>
        unfold get_contextual_notification at h
        rw [hs] at h
        simp at h
      | none =>
        cases hm : check_meal_logging p t nowTime with
        | some n =>
          unfold get_contextual_notification at h
          rw [hs, hm] at h
          simp at h
        | none =>
          cases hc : check_calorie_progress p t with
          | some n =>
            unfold get_contextual_notification at h
            rw [hs, hm, hc] at h
            simp at h
          | none => exact ⟨rfl, rfl, rfl⟩
    · rintro ⟨hs, hm, hc⟩
      unfold get_contextual_notification
      rw [hs, hm, hc]
  · intro ht hsteps
    have hstep : check_step_progress p t nowTime
        = some (mkStepNotification t (effectiveTime t nowTime)) := by
      unfold check_step_progress
      rw [if_pos ⟨ht, hsteps⟩]
    unfold get_contextual_notification
    rw [hstep]
  · intro ht hb hl hs
    have hmeal : check_meal_logging p t nowTime
        = some (mkBreakfastNotification t (effectiveTime t nowTime)) := by
      unfold check_meal_logging
      rw [if_pos ⟨le_trans (by norm_num) ht, hb⟩]
    refine ⟨?_, ?_⟩
    · unfold get_contextual_notification
      rw [hs, hmeal]
    · intro h
      have hEq := congrArg BehavioralNotification.message h
      simp only [mkBreakfastNotification, mkLunchNotification] at hEq
      exact absurd hEq (by decide)

/-- C2 witness (the spec's meal-exclusivity scenario): steps 5000, no meals
logged, time 14:00 — the breakfast reminder is selected. -/
theorem c2_witness :
    get_contextual_notification exProfile exTrackMeal 0 =
      NotificationDecision.rule (mkBreakfastNotification exTrackMeal 840) ∧
    mkBreakfastNotification exTrackMeal 840 ≠ mkLunchNotification exTrackMeal 840 :=
  (c2_selector_priority_chain exProfile exTrackMeal 0).2.2.2.2.2
    (by decide) (by decide) (by decide) (by decide)

/-- C5: when the member is present, `update_member_progress` succeeds and
rewrites exactly that member through the Rank Policy transition: Follower
with streak at least 7 becomes Member; else Member with at least 1000 points
becomes Leader; otherwise the rank is unchanged.  A Follower meeting both
thresholds becomes Member (not Leader), and repeated applications to a
Leader leave the rank Leader. -/
theorem c5_update_progress_rank_policy (c : FitnessCircle) (uid : String)
    (s cal w now now2 : Int) (m : CircleMember)
    (hm : findMember c.members uid = some m) :
    (update_member_progress c uid s cal w now).1 = true ∧
    findMember (update_member_progress c uid s cal w now).2.members uid
      = some (progressStep now m) ∧
    (progressStep now m).rank =
      (if m.rank = CircleRank.follower ∧ 7 ≤ m.current_streak then CircleRank.member
       else if m.rank = CircleRank.member ∧ 1000 ≤ m.total_points then CircleRank.leader
       else m.rank) ∧
    (m.rank = CircleRank.follower → 7 ≤ m.current_streak → 1000 ≤ m.total_points →
      (progressStep now m).rank = CircleRank.member) ∧
    (m.rank = CircleRank.leader →
      (progressStep now2 (progressStep now m)).rank = CircleRank.leader) := by
  have hu : update_member_progress c uid s cal w now =
      (true, { c with
        members := updateFirstMember uid (progressStep now) c.members,
        last_activity := now }) := by
    unfold update_member_progress
    rw [hm]
  refine ⟨?_, ?_, rank_progressStep now m, ?_, ?_⟩
  · rw [hu]
  · rw [hu]
    show findMember (updateFirstMember uid (progressStep now) c.members) uid
      = some (progressStep now m)
    rw [findMember_updateFirstMember uid uid (progressStep now)
      (progressStep_user_id now) c.members, if_pos rfl, hm]
    rfl
  · intro h1 h2 _
    rw [rank_progressStep, if_pos ⟨h1, h2⟩]
  · intro hl
    have r1 : (progressStep now m).rank = CircleRank.leader := by
      rw [rank_progressStep, hl]
      simp
    rw [rank_progressStep, r1]
    simp

/-- C5 witness: a Follower with streak 8 and 2000 points is promoted to
Member (not Leader) by one `update_member_progress` call. -/
theorem c5_witness :
    findMember (update_member_progress exCircle5 "bob" 0 0 0 1).2.members "bob"
      = some (progressStep 1 exFollowerMember) ∧
    (progressStep 1 exFollowerMember).rank = CircleRank.member := by
  have h := c5_update_progress_rank_policy exCircle5 "bob" 0 0 0 1 2
    exFollowerMember (by rfl)
  exact ⟨h.2.1, h.2.2.2.1 rfl (by decide) (by decide)⟩

/-- C6: `join_circle` fails with profile and circle untouched when the
circle is at (or beyond) capacity or the profile's user id is already a
member; otherwise it succeeds, appending exactly one new member — ranked
Member for an influencer-tier joiner and Follower otherwise, with
`last_active = now` and `is_online = true` — and sets `circle.last_activity`. -/
theorem c6_join_gates (p : FitnessProfile) (c : FitnessCircle) (now : Int) :
    ((c.max_members ≤ (c.members.length : Int) ∨ p.name ∈ c.members.map (·.user_id)) →
      join_circle p c now = (false, p, c)) ∧
    ((c.members.length : Int) < c.max_members → p.name ∉ c.members.map (·.user_id) →
      join_circle p c now =
        (true, { p with circles_joined := p.circles_joined ++ [c.circle_id] },
         { c with
           members := c.members ++ [joinNewMember p now],
           last_activity := now })) ∧
    (joinNewMember p now).rank =
      (if p.circle_rank ∈ [CircleRank.influencer, CircleRank.community_influencer,
          CircleRank.big_influencer] then CircleRank.member else CircleRank.follower) ∧
    (joinNewMember p now).last_active = now ∧
    (joinNewMember p now).is_online = true := by
  refine ⟨?_, ?_, rfl, rfl, rfl⟩
  · intro h
    unfold join_circle
    by_cases h1 : c.max_members ≤ (c.members.length : Int)
    · rw [if_pos h1]
    · rw [if_neg h1]
      have h2 : p.name ∈ c.members.map (·.user_id) := by
        rcases h with h | h
        · exact absurd h h1
        · exact h
      rw [if_pos h2]
  · intro h1 h2
    unfold join_circle
    rw [if_neg (not_le.mpr h1), if_neg h2]

/-- C6 witness: a circle at `max_members` rejects the join and is left
unchanged (and an under-capacity circle accepts). -/
theorem c6_witness :
    join_circle exJoiner exFullCircle 3 = (false, exJoiner, exFullCircle) ∧
    (join_circle exJoiner exCircle5 3).1 = true := by
  have hfail := (c6_join_gates exJoiner exFullCircle 3).1 (Or.inl (by decide))
  have hok := (c6_join_gates exJoiner exCircle5 3).2.1 (by decide) (by decide)
  exact ⟨hfail, by rw [hok]⟩

/-- C7: challenge creation and accountability-check initiation return `none`
exactly when the actor has no member record in the circle or that record's
rank is outside {Leader, Influencer, CommunityInfluencer, BigInfluencer};
a Follower or Member actor is always refused, a privileged member always
receives a constructed object, and a constructed check's `target_members`
holds exactly the requested targets that are member ids of the circle. -/
theorem c7_privileged_gates (p : FitnessProfile) (c : FitnessCircle)
    (title desc ctype : String) (tv dd pr : Int) (targets : List String)
    (msg chktype : String) (now : Int) (fid fid2 : String) :
    (create_circle_challenge p c title desc ctype tv dd pr now fid = none ↔
      ¬ ∃ m, findMember c.members p.name = some m ∧
        m.rank ∈ [CircleRank.leader, CircleRank.influencer,
          CircleRank.community_influencer, CircleRank.big_influencer]) ∧
    (initiate_accountability_check p c targets msg chktype now fid2 = none ↔
      ¬ ∃ m, findMember c.members p.name = some m ∧
        m.rank ∈ [CircleRank.leader, CircleRank.influencer,
          CircleRank.community_influencer, CircleRank.big_influencer]) ∧
    (∀ m, findMember c.members p.name = some m →
      (m.rank = CircleRank.follower ∨ m.rank = CircleRank.member) →
      create_circle_challenge p c title desc ctype tv dd pr now fid = none ∧
      initiate_accountability_check p c targets msg chktype now fid2 = none) ∧
    (∀ m, findMember c.members p.name = some m →
      m.rank ∈ [CircleRank.leader, CircleRank.influencer,
        CircleRank.community_influencer, CircleRank.big_influencer] →
      (create_circle_challenge p c title desc ctype tv dd pr now fid).isSome = true ∧
      (initiate_accountability_check p c targets msg chktype now fid2).isSome = true) ∧
    (∀ chk, initiate_accountability_check p c targets msg chktype now fid2 = some chk →
      ∀ x, x ∈ chk.target_members ↔ x ∈ c.members.map (·.user_id) ∧ x ∈ targets) := by
  refine ⟨?_, ?_, ?_, ?_, ?_⟩
  · cases hf : findMember c.members p.name with
    | none =>
      constructor
      · rintro - ⟨m, hm, -⟩
        cases hm
      · intro _
        unfold create_circle_challenge
        rw [hf]
    | some m =>
      have hcall : create_circle_challenge p c title desc ctype tv dd pr now fid =
          (if m.rank ∈ [CircleRank.leader, CircleRank.influencer,
            CircleRank.community_influencer, CircleRank.big_influencer] then
            some (mkCircleChallenge p c title desc ctype tv dd pr now fid)
          else none) := by
        unfold create_circle_challenge
        rw [hf]
      rw [hcall]
      by_cases hr : m.rank ∈ [CircleRank.leader, CircleRank.influencer,
        CircleRank.community_influencer, CircleRank.big_influencer]
      · rw [if_pos hr]
        constructor
        · intro h
          cases h
        · intro hno
          exact absurd ⟨m, rfl, hr⟩ hno
      · rw [if_neg hr]
        constructor
        · rintro - ⟨m2, hm2, hr2⟩
          have hmm := Option.some.inj hm2
          rw [← hmm] at hr2
          exact hr hr2
        · intro _
          rfl
  · cases hf : findMember c.members p.name with
    | none =>
      constructor
      · rintro - ⟨m, hm, -⟩
        cases hm
      · intro _
        unfold initiate_accountability_check
        rw [hf]
    | some m =>
      have hcall : initiate_accountability_check p c targets msg chktype now fid2 =
          (if m.rank ∈ [CircleRank.leader, CircleRank.influencer,
            CircleRank.community_influencer, CircleRank.big_influencer] then
            some (mkAccountabilityCheck p c targets msg chktype now fid2)
          else none) := by
        unfold initiate_accountability_check
        rw [hf]
      rw [hcall]
      by_cases hr : m.rank ∈ [CircleRank.leader, CircleRank.influencer,
        CircleRank.community_influencer, CircleRank.big_influencer]
      · rw [if_pos hr]
        constructor
        · intro h
          cases h
        · intro hno
          exact absurd ⟨m, rfl, hr⟩ hno
      · rw [if_neg hr]
        constructor
        · rintro - ⟨m2, hm2, hr2⟩
          have hmm := Option.some.inj hm2
          rw [← hmm] at hr2
          exact hr hr2
        · intro _
          rfl
  · intro m hm hlow
    have hr : m.rank ∉ [CircleRank.leader, CircleRank.influencer,
        CircleRank.community_influencer, CircleRank.big_influencer] := by
      rcases hlow with h | h <;> rw [h] <;> decide
    have hcall1 : create_circle_challenge p c title desc ctype tv dd pr now fid =
        (if m.rank ∈ [CircleRank.leader, CircleRank.influencer,
          CircleRank.community_influencer, CircleRank.big_influencer] then
          some (mkCircleChallenge p c title desc ctype tv dd pr now fid)
        else none) := by
      unfold create_circle_challenge
      rw [hm]
    have hcall2 : initiate_accountability_check p c targets msg chktype now fid2 =
        (if m.rank ∈ [CircleRank.leader, CircleRank.influencer,
          CircleRank.community_influencer, CircleRank.big_influencer] then
          some (mkAccountabilityCheck p c targets msg chktype now fid2)
        else none) := by
      unfold initiate_accountability_check
      rw [hm]
    rw [hcall1, hcall2, if_neg hr, if_neg hr]
    exact ⟨rfl, rfl⟩
  · intro m hm hr
    have hcall1 : create_circle_challenge p c title desc ctype tv dd pr now fid =
        (if m.rank ∈ [CircleRank.leader, CircleRank.influencer,
          CircleRank.community_influencer, CircleRank.big_influencer] then
          some (mkCircleChallenge p c title desc ctype tv dd pr now fid)
        else none) := by
      unfold create_circle_challenge
      rw [hm]
    have hcall2 : initiate_accountability_check p c targets msg chktype now fid2 =
        (if m.rank ∈ [CircleRank.leader, CircleRank.influencer,
          CircleRank.community_influencer, CircleRank.big_influencer] then
          some (mkAccountabilityCheck p c targets msg chktype now fid2)
        else none) := by
      unfold initiate_accountability_check
      rw [hm]
    rw [hcall1, hcall2, if_pos hr, if_pos hr]
    exact ⟨rfl, rfl⟩
  · intro chk hchk x
    cases hf : findMember c.members p.name with
    | none =>
      have hcall : initiate_accountability_check p c targets msg chktype now fid2 = none := by
        unfold initiate_accountability_check
        rw [hf]
      rw [hcall] at hchk
      cases hchk
    | some m =>
      have hcall : initiate_accountability_check p c targets msg chktype now fid2 =
          (if m.rank ∈ [CircleRank.leader, CircleRank.influencer,
            CircleRank.community_influencer, CircleRank.big_influencer] then
            some (mkAccountabilityCheck p c targets msg chktype now fid2)
          else none) := by
        unfold initiate_accountability_check
        rw [hf]
      rw [hcall] at hchk
      by_cases hr : m.rank ∈ [CircleRank.leader, CircleRank.influencer,
        CircleRank.community_influencer, CircleRank.big_influencer]
      · rw [if_pos hr] at hchk
        rw [← Option.some.inj hchk]
        show x ∈ (c.members.filter (fun mm => decide (mm.user_id ∈ targets))).map
          (·.user_id) ↔ _
        constructor
        · intro hx
          rcases List.mem_map.mp hx with ⟨a, ha, hax⟩
          rcases List.mem_filter.mp ha with ⟨hmem, hdec⟩
          refine ⟨List.mem_map.mpr ⟨a, hmem, hax⟩, ?_⟩
          rw [← hax]
          exact of_decide_eq_true hdec
        · rintro ⟨hx, hxt⟩
          rcases List.mem_map.mp hx with ⟨a, ha, hax⟩
          refine List.mem_map.mpr ⟨a, List.mem_filter.mpr ⟨ha, ?_⟩, hax⟩
          rw [decide_eq_true_eq, hax]
          exact hxt
      · rw [if_neg hr] at hchk
        cases hchk

/-- C7 witness: a Leader member creates a challenge and initiates a check,
and the check's targets keep exactly the requested ids that are members. -/
theorem c7_witness :
    (create_circle_challenge exLeaderProfile exLeaderCircle "t" "d" "steps"
      1 1 1 0 "ch1").isSome = true ∧
    (initiate_accountability_check exLeaderProfile exLeaderCircle ["bob", "zed"]
      "m" "daily" 0 "ak1").isSome = true :=
  (c7_privileged_gates exLeaderProfile exLeaderCircle "t" "d" "steps" 1 1 1
    ["bob", "zed"] "m" "daily" 0 "ch1" "ak1").2.2.2.1 exLeaderMember (by rfl) (by decide)

theorem leaderboardLe_total (a b : CircleMember) : leaderboardLe a b ∨ leaderboardLe b a := by
  unfold leaderboardLe
  omega

theorem leaderboardLe_trans (a b c : CircleMember)
    (h1 : leaderboardLe a b) (h2 : leaderboardLe b c) : leaderboardLe a c := by
  unfold leaderboardLe at h1 h2 ⊢
  omega

/-- Two sorted lists that are permutations of each other coincide, given
antisymmetry of the order on the first list's elements. -/
theorem sorted_perm_eq_of_antisymm {α : Type} {r : α → α → Prop} :
    ∀ {l₁ l₂ : List α}, l₁.Perm l₂ → List.Sorted r l₁ → List.Sorted r l₂ →
      (∀ a ∈ l₁, ∀ b ∈ l₁, r a b → r b a → a = b) → l₁ = l₂ := by
  intro l₁
  induction l₁ with
  | nil =>
    intro l₂ hp _ _ _
    exact (hp.symm.eq_nil).symm ▸ rfl
  | cons a t ih =>
    intro l₂ hp hs₁ hs₂ hanti
    cases l₂ with
    | nil => exact absurd hp.eq_nil (by simp)
    | cons b t₂ =>
      rcases List.sorted_cons.mp hs₁ with ⟨ha, hst⟩
      rcases List.sorted_cons.mp hs₂ with ⟨hb, hst₂⟩
      have hab : a = b := by
        by_cases h : a = b
        · exact h
        · have hbmem : b ∈ a :: t := hp.symm.subset (List.mem_cons_self b t₂)
          have hbt : b ∈ t := by
            rcases List.mem_cons.mp hbmem with h1 | h1
            · exact absurd h1.symm h
            · exact h1
          have hamem : a ∈ b :: t₂ := hp.subset (List.mem_cons_self a t)
          have hat : a ∈ t₂ := by
            rcases List.mem_cons.mp hamem with h1 | h1
            · exact absurd h1 h
            · exact h1
          exact hanti a (List.mem_cons_self a t) b (List.mem_cons_of_mem _ hbt)
            (ha b hbt) (hb a hat)
      subst hab
      have ht : t.Perm t₂ := hp.cons_inv
      have heq : t = t₂ := ih ht hst hst₂
        (fun x hx y hy => hanti x (List.mem_cons_of_mem _ hx) y (List.mem_cons_of_mem _ hy))
      rw [heq]

/-- C8 (amended): for every circle — tied keys included — the leaderboard is
a permutation of the member list sorted consistently with (total_points
desc, current_streak desc); additionally, a circle whose member list is a
permutation of it has the identical leaderboard sequence provided no two
distinct members share the same (total_points, current_streak) key — with
tied keys the stable sort preserves stored order, so full
order-independence fails. -/
theorem c8_leaderboard_sorted_and_key_order_independent (c cp : FitnessCircle) :
    (get_circle_leaderboard c).Perm c.members ∧
    List.Sorted leaderboardLe (get_circle_leaderboard c) ∧
    (cp.members.Perm c.members →
      (∀ a ∈ c.members, ∀ b ∈ c.members,
        a.total_points = b.total_points → a.current_streak = b.current_streak → a = b) →
      get_circle_leaderboard cp = get_circle_leaderboard c) := by
  have htot : IsTotal CircleMember leaderboardLe := ⟨leaderboardLe_total⟩
  have htrans : IsTrans CircleMember leaderboardLe := ⟨leaderboardLe_trans⟩
  have hs1 : List.Sorted leaderboardLe (get_circle_leaderboard cp) :=
    @List.sorted_insertionSort _ leaderboardLe _ htot htrans cp.members
  have hs2 : List.Sorted leaderboardLe (get_circle_leaderboard c) :=
    @List.sorted_insertionSort _ leaderboardLe _ htot htrans c.members
  refine ⟨List.perm_insertionSort _ _, hs2, ?_⟩
  intro hperm hkeys
  have hp : (get_circle_leaderboard cp).Perm (get_circle_leaderboard c) :=
    ((List.perm_insertionSort leaderboardLe cp.members).trans hperm).trans
      (List.perm_insertionSort leaderboardLe c.members).symm
  apply sorted_perm_eq_of_antisymm hp hs1 hs2
  intro x hx y hy hxy hyx
  have hxc : x ∈ c.members :=
    hperm.subset ((List.perm_insertionSort leaderboardLe cp.members).subset hx)
  have hyc : y ∈ c.members :=
    hperm.subset ((List.perm_insertionSort leaderboardLe cp.members).subset hy)
  unfold leaderboardLe at hxy hyx
  have hpts : x.total_points = y.total_points := by omega
  have hstk : x.current_streak = y.current_streak := by omega
  exact hkeys x hxc y hyc hpts hstk

/-- C8 witness: the leaderboard of a tied-key circle is still a sorted
permutation of its members, and with distinct keys any storage order gives
the same leaderboard sequence. -/
theorem c8_witness :
    (get_circle_leaderboard exCircTie1).Perm exCircTie1.members ∧
    List.Sorted leaderboardLe (get_circle_leaderboard exCircTie1) ∧
    get_circle_leaderboard exCircSortB = get_circle_leaderboard exCircSortA :=
  ⟨(c8_leaderboard_sorted_and_key_order_independent exCircTie1 exCircTie1).1,
   (c8_leaderboard_sorted_and_key_order_independent exCircTie1 exCircTie1).2.1,
   (c8_leaderboard_sorted_and_key_order_independent exCircSortA exCircSortB).2.2
     (by decide) (by decide)⟩

/-- C8 counterexample: two members tied on (total_points, current_streak) —
permuting the stored list permutes the leaderboard output, refuting
order-independence as stated. -/
theorem c8_counterexample :
    exCircTie2.members.Perm exCircTie1.members ∧
    get_circle_leaderboard exCircTie2 ≠ get_circle_leaderboard exCircTie1 := by
  constructor
  · exact List.Perm.swap exTieA exTieB []
  · decide

theorem applyOp_rank_mono (c : FitnessCircle) (op : RegistryOp)
    (hop : op.isAdminPromote = false) (uid : String) (m : CircleMember)
    (hm : findMember c.members uid = some m) :
    ∃ mp, findMember (applyOp c op).members uid = some mp ∧
      rankVal m.rank ≤ rankVal mp.rank := by
  cases op with
  | joinOp p now =>
    show ∃ mp, findMember (join_circle p c now).2.2.members uid = some mp ∧ _
    unfold join_circle
    by_cases h1 : c.max_members ≤ (c.members.length : Int)
    · rw [if_pos h1]
      exact ⟨m, hm, le_refl _⟩
    · rw [if_neg h1]
      by_cases h2 : p.name ∈ c.members.map (·.user_id)
      · rw [if_pos h2]
        exact ⟨m, hm, le_refl _⟩
      · rw [if_neg h2]
        exact ⟨m, findMember_append _ _ _ _ hm, le_refl _⟩
  | promoteOp id r now =>
    exact absurd hop (by simp [RegistryOp.isAdminPromote])
  | updateOp id s cal w now =>
    show ∃ mp, findMember (update_member_progress c id s cal w now).2.members uid
      = some mp ∧ _
    unfold update_member_progress
    cases hfind : findMember c.members id with
    | none =>
      exact ⟨m, hm, le_refl _⟩
    | some m0 =>
      show ∃ mp, findMember (updateFirstMember id (progressStep now) c.members) uid
        = some mp ∧ _
      rw [findMember_updateFirstMember uid id (progressStep now)
        (progressStep_user_id now) c.members]
      by_cases h : uid = id
      · rw [if_pos h, hm]
        exact ⟨progressStep now m, rfl, rankVal_progressStep now m⟩
      · rw [if_neg h]
        exact ⟨m, hm, le_refl _⟩

/-- C9 (amended): across every sequence of join and update_progress
operations, an existing member's rank never decreases (the Rank Policy only
promotes); `promote_member_rank`, an unconditional administrative overwrite,
is excluded since it can assign any rank, lower ones included. -/
theorem c9_rank_monotone_without_admin_promote :
    ∀ (ops : List RegistryOp), (∀ op ∈ ops, op.isAdminPromote = false) →
    ∀ (c : FitnessCircle) (uid : String) (m : CircleMember),
      findMember c.members uid = some m →
      ∃ mp, findMember (applyOps c ops).members uid = some mp ∧
        rankVal m.rank ≤ rankVal mp.rank := by
  intro ops
  induction ops with
  | nil =>
    intro _ c uid m hm
    exact ⟨m, hm, le_refl _⟩
  | cons op rest ih =>
    intro hall c uid m hm
    obtain ⟨m1, hm1, hle1⟩ := applyOp_rank_mono c op (hall op (List.mem_cons_self _ _)) uid m hm
    obtain ⟨m2, hm2, hle2⟩ := ih (fun o ho => hall o (List.mem_cons_of_mem _ ho))
      (applyOp c op) uid m1 hm1
    exact ⟨m2, hm2, le_trans hle1 hle2⟩

/-- C9 witness: an update (which promotes bob to Member) followed by a join
leaves bob's rank at least Follower-high. -/
theorem c9_witness :
    ∃ mp, findMember (applyOps exCircle5
      [RegistryOp.updateOp "bob" 0 0 0 1, RegistryOp.joinOp exJoiner 2]).members "bob"
        = some mp ∧ rankVal exFollowerMember.rank ≤ rankVal mp.rank :=
  c9_rank_monotone_without_admin_promote
    [RegistryOp.updateOp "bob" 0 0 0 1, RegistryOp.joinOp exJoiner 2]
    (by decide) exCircle5 "bob" exFollowerMember (by rfl)

/-- C9 counterexample: `promote_member_rank` is an unconditional overwrite —
one registry operation demotes a Leader back to Follower, refuting "no
member's rank ever decreases" over join/promote/update sequences. -/
theorem c9_counterexample :
    (findMember exLeaderCircle.members "lena").map (fun m => rankVal m.rank) = some 2 ∧
    (findMember (applyOps exLeaderCircle
      [RegistryOp.promoteOp "lena" CircleRank.follower 9]).members "lena").map
        (fun m => rankVal m.rank) = some 0 := by
  constructor
  · rfl
  · rfl

/-- C10 (amended): join and circle creation leave every profile field
unchanged except `circles_joined`, to which a successful join (and creation)
appends the circle's id; a failed join leaves the profile entirely
unchanged.  The claim's "supplied FitnessProfile unchanged" fails on
success. -/
theorem c10_profile_frame (p : FitnessProfile) (c : FitnessCircle) (now : Int)
    (nm ds : String) (g : FitnessGoal) (mx : Int) (pub : Bool) (tags : List String)
    (now2 : Int) (fid : String) :
    profileSansCirclesJoined (join_circle p c now).2.1 = profileSansCirclesJoined p ∧
    ((join_circle p c now).1 = false → (join_circle p c now).2.1 = p) ∧
    ((join_circle p c now).1 = true →
      (join_circle p c now).2.1.circles_joined = p.circles_joined ++ [c.circle_id]) ∧
    profileSansCirclesJoined (create_fitness_circle p nm ds g mx pub tags now2 fid).2
      = profileSansCirclesJoined p ∧
    (create_fitness_circle p nm ds g mx pub tags now2 fid).2.circles_joined
      = p.circles_joined ++ [fid] := by
  refine ⟨?_, ?_, ?_, rfl, rfl⟩
  · unfold join_circle
    by_cases h1 : c.max_members ≤ (c.members.length : Int)
    · rw [if_pos h1]
    · rw [if_neg h1]
      by_cases h2 : p.name ∈ c.members.map (·.user_id)
      · rw [if_pos h2]
      · rw [if_neg h2]
        rfl
  · intro h
    unfold join_circle at h ⊢
    by_cases h1 : c.max_members ≤ (c.members.length : Int)
    · rw [if_pos h1]
    · rw [if_neg h1] at h ⊢
      by_cases h2 : p.name ∈ c.members.map (·.user_id)
      · rw [if_pos h2]
      · rw [if_neg h2] at h
        simp at h
  · intro h
    unfold join_circle at h ⊢
    by_cases h1 : c.max_members ≤ (c.members.length : Int)
    · rw [if_pos h1] at h
      simp at h
    · rw [if_neg h1] at h ⊢
      by_cases h2 : p.name ∈ c.members.map (·.user_id)
      · rw [if_pos h2] at h
        simp at h
      · rw [if_neg h2]

/-- C10 witness: a successful join appends exactly the circle id to
`circles_joined`. -/
theorem c10_witness :
    (join_circle exJoiner exCircle5 3).2.1.circles_joined
      = exJoiner.circles_joined ++ [exCircle5.circle_id] :=
  (c10_profile_frame exJoiner exCircle5 3 "n" "d" FitnessGoal.weight_loss 10 true [] 0
    "x").2.2.1 (by decide)

/-- C10 counterexample: a successful join mutates the supplied profile
(`circles_joined` gains the circle id), refuting "join leaves the supplied
FitnessProfile unchanged whether it succeeds or fails". -/
theorem c10_counterexample :
    (join_circle exJoiner exCircle5 3).1 = true ∧
    (join_circle exJoiner exCircle5 3).2.1 ≠ exJoiner := by
  constructor
  · rfl
  · decide
